import Mathlib

/-!
Verification of the market-watch monitor (`src/main.py`) against its
natural-language specification.

The embedding models Python values and control flow shallowly:
* JSON payloads are an inductive `Json`; a JSON `null` is the Python value
  `None`, so a fetcher that returns the `null` it extracted returns `none`.
* Python floats are modelled as rationals `ℚ`; every numeric literal the
  program compares against (45, 25, -0.75, 200) and every value appearing in
  the claims (4.50, 3.75, ...) is exactly representable in binary floating
  point, so rational arithmetic agrees with the float arithmetic the program
  performs on these values.
* Exceptions are `Except PyErr`; a `try/except Exception` block is a `match`
  on the body's `Except` result, which is faithful because `except Exception`
  catches every error the body can raise.
* Network I/O is modelled by passing each fetcher the `HttpOutcome` of the
  request(s) it issues: either a transport-level failure or a response with a
  status code, raw content, and (when the content is well-formed JSON) a
  parsed body.
* Log lines are an inductive `Line` keeping the message structure (which
  classification fired, with which raw values); textual formatting of the
  timestamps and numbers is abstracted.
-/

namespace MarketWatch

/-- JSON values, as parsed by `response.json()`. -/
inductive Json where
  | null : Json
  | num (q : ℚ) : Json
  | str (s : String) : Json
  | arr (elems : List Json) : Json
  | obj (fields : List (String × Json)) : Json

/-- Python exceptions that the program's code paths can raise. -/
inductive PyErr where
  /-- Python `KeyError` from indexing a dict with a missing key. -/
  | keyError (key : String) : PyErr
  /-- Python `IndexError` from indexing a list out of range. -/
  | indexError : PyErr
  /-- Python `TypeError` from indexing / arithmetic on a value of the wrong type. -/
  | typeError : PyErr
  /-- Python `ValueError` from `float(s)` on an unparsable string. -/
  | valueError (s : String) : PyErr
  /-- Python `json.JSONDecodeError` from `response.json()` on a non-JSON body. -/
  | jsonDecodeError : PyErr
  /-- The script's own `HTTPError(status, message)` raised by `get`. -/
  | httpError (status : Nat) (message : String) : PyErr
  /-- A `requests` transport failure (connection, DNS, timeout). -/
  | transportError (message : String) : PyErr
deriving DecidableEq

/-- Indexing `data[key]` on a parsed JSON value: `KeyError` when the key is missing
from a dict, `TypeError` when the value is not a dict. -/
def Json.getKey (j : Json) (key : String) : Except PyErr Json :=
  match j with
  | .obj fields =>
    match fields.lookup key with
    | some v => Except.ok v
    | none => Except.error (PyErr.keyError key)
  | _ => Except.error PyErr.typeError

/-- Indexing `data[i]` on a parsed JSON list, with Python semantics for negative
indices (`xs[-1]` is the last element): `IndexError` when out of range,
`TypeError` when the value is not a list. -/
def Json.getIdx (j : Json) (i : Int) : Except PyErr Json :=
  match j with
  | .arr elems =>
    let k : Int := if i < 0 then i + elems.length else i
    if k < 0 then Except.error PyErr.indexError
    else
      match elems.get? k.toNat with
      | some v => Except.ok v
      | none => Except.error PyErr.indexError
  | _ => Except.error PyErr.typeError

/-- Whether a JSON value is `null` (the Python value `None`). -/
def Json.isNull : Json → Bool
  | .null => true
  | _ => false

/-- A numeric JSON value as a Python float; anything else raises `TypeError`
when used in arithmetic or an ordered comparison with a number. -/
def Json.asNum : Json → Except PyErr ℚ
  | .num q => Except.ok q
  | _ => Except.error PyErr.typeError

/-- Python truthiness of a value a fetcher may hand to the monitor loop:
`None`, numeric `0`, the empty string and empty containers are falsy. -/
def pyTruthy : Option Json → Bool
  | none => false
  | some .null => false
  | some (.num q) => q != 0
  | some (.str s) => s != ""
  | some (.arr elems) => !elems.isEmpty
  | some (.obj fields) => !fields.isEmpty

/-- The value a Python function returns when it returns a parsed JSON value:
JSON `null` is the Python value `None`. -/
def Json.toPy (j : Json) : Option Json :=
  if j.isNull then none else some j

/-- Outcome of one HTTP request, before any status check. `response` carries
the status code, the raw content (as text), and the parsed JSON body when the
content is well-formed JSON (`none` means `response.json()` would raise). -/
inductive HttpOutcome where
  | transportFailure (message : String) : HttpOutcome
  | response (status : Nat) (content : String) (body : Option Json) : HttpOutcome

/-- An HTTP request descriptor: URL, the headers explicitly passed to
`requests.get`, and the timeout bound (`none` = no timeout, the
`requests` default). -/
structure Request where
  url : String
  headers : List (String × String)
  timeout : Option Nat
deriving DecidableEq

/-- The fixed browser-like header set of `get` (src/main.py lines 37-45). -/
def HEADERS : List (String × String) :=
  [("User-Agent",
    "Mozilla/5.0 (Windows NT 10.0; Win64; x64) AppleWebKit/537.36 (KHTML, like Gecko) Chrome/115.0 Safari/537.36"),
   ("Accept", "application/json,text/plain,*/*"),
   ("Accept-Language", "en-US,en;q=0.9")]

/-- The request issued by `get(url, timeout)` (src/main.py line 46): browser
headers, bounded by the given timeout (30 at both call sites, the default). -/
def get_request (url : String) (timeout : Nat) : Request :=
  ⟨url, HEADERS, some timeout⟩

/-- Model of `response.json()`: parse failure when the content is not JSON. -/
def response_json (o : HttpOutcome) : Except PyErr Json :=
  match o with
  | .transportFailure m => Except.error (PyErr.transportError m)
  | .response _ _ (some j) => Except.ok j
  | .response _ _ none => Except.error PyErr.jsonDecodeError

/-- The `get` wrapper (src/main.py lines 36-49): raises
`HTTPError(status, message=str(response.content))` whenever
`response.status_code != 200`, otherwise returns the parsed JSON body. -/
def get (o : HttpOutcome) : Except PyErr Json :=
  match o with
  | .transportFailure m => Except.error (PyErr.transportError m)
  | .response status content body =>
    if status ≠ 200 then Except.error (PyErr.httpError status content)
    else
      match body with
      | some j => Except.ok j
      | none => Except.error PyErr.jsonDecodeError

/-- A log line the program emits via `log(...)`, keeping the message
structure and the raw values; textual formatting is abstracted. -/
inductive Line where
  | monitorStarted : Line
  /-- Message `VIX ALERT: {vix} (Possible Capitulation Trigger)` -/
  | vixAlert (vix : ℚ) : Line
  /-- Message `VIX Warning: {vix} (Crash Phase Trigger)` -/
  | vixWarning (vix : ℚ) : Line
  /-- Message `VIX Normal: {vix}` -/
  | vixNormal (vix : ℚ) : Line
  /-- Message `S&P 500 Below 200MA: Price=..., MA200=...` -/
  | spBelow (price ma200 : ℚ) : Line
  /-- Message `S&P 500 Above 200MA: Price=..., MA200=...` -/
  | spAbove (price ma200 : ℚ) : Line
  /-- Message `Yield Curve Deep Inversion: 2y=..., 10y=..., Spread=...` -/
  | ycDeepInversion (y2 y10 spread : ℚ) : Line
  /-- Message `Error fetching VIX: {e}` -/
  | errVix (e : PyErr) : Line
  /-- Message `Error fetching S&P 500 data: {e}` -/
  | errSp500 (e : PyErr) : Line
  /-- Message `Error fetching yield curve: {e}` -/
  | errYieldCurve (e : PyErr) : Line
  /-- Message `Yield Curve Normal/Steepening: Spread=...` -/
  | ycNormalSteepening (spread : ℚ) : Line
deriving DecidableEq

section Vix

/-- The body of `check_vix`'s `try` block (src/main.py lines 55-57):
`get(...)` then `data["chart"]["result"][0]["meta"]["regularMarketPrice"]`. -/
def check_vix_body (o : HttpOutcome) : Except PyErr Json := do
  let data ← get o
  let chart ← data.getKey "chart"
  let result ← chart.getKey "result"
  let r0 ← result.getIdx 0
  let meta ← r0.getKey "meta"
  meta.getKey "regularMarketPrice"

/-- The fetcher `check_vix` (src/main.py lines 52-60). The `try/except Exception` wrapper
turns every raised error into a logged line and a `None` return; a successful
extraction of a JSON `null` price returns `None` with no log line. The outer
`Except` records whether an exception escapes the fetcher (it never does:
`except Exception` catches everything the body raises). -/
def check_vix (o : HttpOutcome) : Except PyErr (Option Json × List Line) :=
  match check_vix_body o with
  | Except.ok v => Except.ok (v.toPy, [])
  | Except.error e => Except.ok (none, [Line.errVix e])

/-- The VIX classification applied by the monitor loop to a value it
classifies (src/main.py lines 104-109). -/
def vix_line (v : ℚ) : Line :=
  if v > 45 then Line.vixAlert v
  else if v > 25 then Line.vixWarning v
  else Line.vixNormal v

/-- The monitor loop's VIX step after the fetch (src/main.py lines 103-109):
`if vix:` guards on Python truthiness, so `None` and a value of exactly `0`
are both skipped; a truthy non-numeric value would raise `TypeError` in the
comparison `vix > 45`. -/
def vix_step (vix : Option Json) : Except PyErr (List Line) :=
  if pyTruthy vix then
    match vix with
    | some (Json.num v) => Except.ok [vix_line v]
    | _ => Except.error PyErr.typeError
  else Except.ok []

end Vix

section Sp500

/-- Filtering and windowing of `check_sp500_200ma` on an already-extracted
list of daily closes (src/main.py lines 68-73): drop `None` entries keeping
order, require at least 200 survivors, and return
`(closes[-1], sum(closes[-200:]) / 200)`. The `getLast?` `none` branch is
unreachable under the length guard, mirroring that `closes[-1]` cannot raise
there. -/
def sp500_from_closes (closes : List (Option ℚ)) : Option (ℚ × ℚ) :=
  let valid := closes.filterMap id
  if 200 ≤ valid.length then
    match valid.getLast? with
    | some last => some (last, (valid.drop (valid.length - 200)).sum / 200)
    | none => none
  else none

/-- Python `sum` over a list of parsed JSON values: `TypeError` as soon as a
non-numeric element is added. -/
def sumNums : List Json → Except PyErr ℚ
  | [] => Except.ok 0
  | c :: cs => do
    let q ← c.asNum
    let rest ← sumNums cs
    Except.ok (q + rest)

/-- Lines 68-73 of the source on the parsed closes list: filter out `None`
entries preserving order, require at least 200 survivors, and compute
`ma200 = sum(closes[-200:]) / 200` and `last_price = closes[-1]` (the
`getLast?` `none` branch is unreachable under the length guard, mirroring
that `closes[-1]` cannot raise there). -/
def sp500_window (closes : List Json) : Except PyErr (Option (ℚ × ℚ)) :=
  let valid := closes.filter (fun c => !c.isNull)
  if 200 ≤ valid.length then do
    let windowSum ← sumNums (valid.drop (valid.length - 200))
    match valid.getLast? with
    | some lastJ => do
      let lastClose ← lastJ.asNum
      Except.ok (some (lastClose, windowSum / 200))
    | none => Except.error PyErr.indexError
  else
    Except.ok none

/-- The body of `check_sp500_200ma`'s `try` block (src/main.py lines 66-73):
extract `chart.result[0].indicators.quote[0].close` (iterating a non-list
raises `TypeError`), then filter and window the closes. -/
def check_sp500_body (o : HttpOutcome) : Except PyErr (Option (ℚ × ℚ)) := do
  let data ← get o
  let chart ← data.getKey "chart"
  let result ← chart.getKey "result"
  let r0 ← result.getIdx 0
  let indicators ← r0.getKey "indicators"
  let quote ← indicators.getKey "quote"
  let q0 ← quote.getIdx 0
  let closesJson ← q0.getKey "close"
  match closesJson with
  | Json.arr closes => sp500_window closes
  | _ => Except.error PyErr.typeError

/-- The fetcher `check_sp500_200ma` (src/main.py lines 63-76): raised errors are logged
and converted to `None`; fewer than 200 valid closes returns `None` without
any log line. -/
def check_sp500_200ma (o : HttpOutcome) : Except PyErr (Option (ℚ × ℚ) × List Line) :=
  match check_sp500_body o with
  | Except.ok v => Except.ok (v, [])
  | Except.error e => Except.ok (none, [Line.errSp500 e])

/-- The monitor loop's S&P 500 step after the fetch (src/main.py
lines 113-118): a returned pair is always truthy, so `if sp500:` only skips
the `None` outcome. -/
def sp500_step (sp500 : Option (ℚ × ℚ)) : List Line :=
  match sp500 with
  | none => []
  | some (price, ma200) =>
    if price < ma200 then [Line.spBelow price ma200]
    else [Line.spAbove price ma200]

end Sp500

section YieldCurve

/-- Accumulate a decimal digit string left to right; `none` on any
non-digit character. -/
def digitsVal : Nat → List Char → Option Nat
  | acc, [] => some acc
  | acc, c :: cs =>
    if c.isDigit then digitsVal (10 * acc + (c.toNat - 48)) cs else none

/-- The fragment of Python `float(s)` the program can meet: an optional
sign, then decimal digits with at most one dot and at least one digit
(`"4.50"`, `"4."`, `".5"` parse; the FRED sentinel `"."` and non-numeric
text do not). Exponents, infinities and surrounding whitespace do not occur
in FRED observation values and are not modelled. -/
def parseFloat (s : String) : Option ℚ :=
  let core : List Char → Option ℚ := fun cs =>
    let intPart := cs.takeWhile (fun c => c ≠ '.')
    match cs.dropWhile (fun c => c ≠ '.') with
    | [] =>
      if intPart.isEmpty then none
      else (digitsVal 0 intPart).map (fun n => (n : ℚ))
    | _ :: fracPart =>
      if intPart.isEmpty && fracPart.isEmpty then none
      else do
        let i ← digitsVal 0 intPart
        let f ← digitsVal 0 fracPart
        some ((i : ℚ) + (f : ℚ) / (10 : ℚ) ^ fracPart.length)
  match s.data with
  | '-' :: rest => (core rest).map (fun q => -q)
  | '+' :: rest => core rest
  | cs => core cs

/-- Python `float(x)`: numbers pass through, strings are parsed
(`ValueError` on failure), anything else raises `TypeError`. -/
def pyFloat : Json → Except PyErr ℚ
  | Json.num q => Except.ok q
  | Json.str s =>
    match parseFloat s with
    | some q => Except.ok q
    | none => Except.error (PyErr.valueError s)
  | _ => Except.error PyErr.typeError

/-- The FRED observations URL for a series (src/main.py lines 84-85). -/
def fred_url (series apiKey : String) : String :=
  "https://api.stlouisfed.org/fred/series/observations?series_id=" ++ series
    ++ "&api_key=" ++ apiKey ++ "&file_type=json"

/-- The body of `check_yield_curve`'s `try` block (src/main.py lines 84-91):
two bare `requests.get(url).json()` calls (no status check, no wrapper),
`["observations"][-1]["value"]` on each, `float` conversion, and
`spread = y10 - y2`. The evaluation order matches the source: the 2y
response is fetched and indexed, then the 10y response, then the floats. -/
def check_yield_curve_body (o2y o10y : HttpOutcome) : Except PyErr (ℚ × ℚ × ℚ) := do
  let data2y ← (← (← response_json o2y).getKey "observations").getIdx (-1)
  let data10y ← (← (← response_json o10y).getKey "observations").getIdx (-1)
  let y2 ← pyFloat (← data2y.getKey "value")
  let y10 ← pyFloat (← data10y.getKey "value")
  Except.ok (y2, y10, y10 - y2)

/-- The fetcher `check_yield_curve` (src/main.py lines 79-94): short-circuits to `None`
before the `try` block when the configured key is falsy (the empty string);
otherwise raised errors are logged and converted to `None`. -/
def check_yield_curve (apiKey : String) (o2y o10y : HttpOutcome) :
    Except PyErr (Option (ℚ × ℚ × ℚ) × List Line) :=
  if apiKey = "" then Except.ok (none, [])
  else
    match check_yield_curve_body o2y o10y with
    | Except.ok v => Except.ok (some v, [])
    | Except.error e => Except.ok (none, [Line.errYieldCurve e])

/-- The requests `check_yield_curve` issues when it runs to the network
phase: the two series fetches go through bare `requests.get(url)`
(src/main.py lines 86-87) — no `headers=` argument and no `timeout=`
argument — and none at all when the key is falsy. -/
def yield_curve_requests (apiKey : String) : List Request :=
  if apiKey = "" then []
  else [⟨fred_url "DGS2" apiKey, [], none⟩, ⟨fred_url "DGS10" apiKey, [], none⟩]

/-- The monitor loop's yield-curve step after the fetch (src/main.py
lines 122-129): a returned triple is always truthy. -/
def yield_curve_step (yc : Option (ℚ × ℚ × ℚ)) : List Line :=
  match yc with
  | none => []
  | some (y2, y10, spread) =>
    if spread < -0.75 then [Line.ycDeepInversion y2 y10 spread]
    else [Line.ycNormalSteepening spread]

end YieldCurve

section Monitor

/-- The VIX chart URL (src/main.py line 55). -/
def VIX_URL : String := "https://query1.finance.yahoo.com/v8/finance/chart/^VIX"

/-- The S&P 500 chart URL (src/main.py line 66). -/
def SP500_URL : String :=
  "https://query1.finance.yahoo.com/v8/finance/chart/^GSPC?range=1y&interval=1d"

/-- Every request one monitor cycle issues, in order: the two chart fetches
through the `get` wrapper with its default 30-second timeout, then the FRED
fetches (when the key is truthy) through bare `requests.get`. -/
def cycle_requests (apiKey : String) : List Request :=
  [get_request VIX_URL 30, get_request SP500_URL 30] ++ yield_curve_requests apiKey

/-- The upstream world one monitor cycle runs against: the configured FRED
key and the outcome of each request the cycle may issue. -/
structure CycleInput where
  apiKey : String
  vixOutcome : HttpOutcome
  sp500Outcome : HttpOutcome
  fred2yOutcome : HttpOutcome
  fred10yOutcome : HttpOutcome

/-- One iteration of `run_monitor`'s `while True` body before the sleep
(src/main.py lines 101-129): the three fetch-classify-log steps in fixed
order. The outer `Except` records an exception crashing the loop (none of
the fetchers can cause one; only a truthy non-numeric VIX value could). -/
def run_cycle (inp : CycleInput) : Except PyErr (List Line) := do
  let (vix, vixLogs) ← check_vix inp.vixOutcome
  let vixLines ← vix_step vix
  let (sp500, spLogs) ← check_sp500_200ma inp.sp500Outcome
  let spLines := sp500_step sp500
  let (yc, ycLogs) ← check_yield_curve inp.apiKey inp.fred2yOutcome inp.fred10yOutcome
  let ycLines := yield_curve_step yc
  Except.ok (vixLogs ++ vixLines ++ spLogs ++ spLines ++ ycLogs ++ ycLines)

end Monitor

section Config

/-- Model of `decouple.config(name, default)` over an environment: the variable's
value when present, the default when given, and an `UndefinedValueError`
otherwise. -/
def decoupleConfig (env : List (String × String)) (name : String)
    (default : Option String) : Except String String :=
  match env.lookup name with
  | some v => Except.ok v
  | none =>
    match default with
    | some d => Except.ok d
    | none => Except.error ("UndefinedValueError: " ++ name ++ " not found")

/-- Loading `FRED_API_KEY` (src/main.py line 8): `config("FRED_API_KEY",
cast=str)` passes no default, so an environment without the variable raises
at import time and the process never starts. -/
def load_FRED_API_KEY (env : List (String × String)) : Except String String :=
  decoupleConfig env "FRED_API_KEY" none

/-- Loading `LOG_FILE` (src/main.py line 10), which does pass a default. -/
def load_LOG_FILE (env : List (String × String)) : Except String String :=
  decoupleConfig env "LOG_FILE" (some "market_triggers.log")

end Config

section Payloads

/-- A well-formed VIX chart response whose `regularMarketPrice` field holds
`price`: a `200` status with body
`{chart: {result: [{meta: {regularMarketPrice: price}}]}}`. -/
def vixChartOutcome (price : Json) : HttpOutcome :=
  HttpOutcome.response 200 "" (some (Json.obj [("chart", Json.obj [("result",
    Json.arr [Json.obj [("meta", Json.obj [("regularMarketPrice", price)])]])])]))

/-- A VIX chart response whose `meta` object lacks `regularMarketPrice`. -/
def vixOutcomeNoPrice : HttpOutcome :=
  HttpOutcome.response 200 "" (some (Json.obj [("chart", Json.obj [("result",
    Json.arr [Json.obj [("meta", Json.obj [])]])])]))

/-- A VIX chart response whose first result lacks the `meta` key. -/
def vixOutcomeNoMeta : HttpOutcome :=
  HttpOutcome.response 200 "" (some (Json.obj [("chart", Json.obj [("result",
    Json.arr [Json.obj []])])]))

/-- A VIX chart response whose `result` list is empty. -/
def vixOutcomeEmptyResult : HttpOutcome :=
  HttpOutcome.response 200 "" (some (Json.obj [("chart", Json.obj [("result",
    Json.arr [])])]))

/-- A VIX chart response lacking the top-level `chart` key. -/
def vixOutcomeNoChart : HttpOutcome :=
  HttpOutcome.response 200 "" (some (Json.obj []))

/-- A daily close as it appears in the chart JSON: `null` for a missing
sample, a number otherwise. -/
def jsonOfClose : Option ℚ → Json
  | none => Json.null
  | some q => Json.num q

/-- A well-formed S&P 500 chart response carrying the given closes under
`chart.result[0].indicators.quote[0].close`. -/
def sp500ChartOutcome (closes : List (Option ℚ)) : HttpOutcome :=
  HttpOutcome.response 200 "" (some (Json.obj [("chart", Json.obj [("result",
    Json.arr [Json.obj [("indicators", Json.obj [("quote",
      Json.arr [Json.obj [("close", Json.arr (closes.map jsonOfClose))]])])]])])]))

/-- A well-formed FRED observations response whose most recent observation
carries the value string `v`. -/
def fredOutcome (v : String) : HttpOutcome :=
  HttpOutcome.response 200 "" (some (Json.obj [("observations", Json.arr
    [Json.obj [("date", Json.str "2026-01-01"), ("value", Json.str "1.00")],
     Json.obj [("date", Json.str "2026-01-02"), ("value", Json.str v)]])]))

end Payloads

section Helpers

/-- Peeling one `Except` bind that ended in success. -/
theorem except_bind_ok {ε α β : Type} {x : Except ε α} {f : α → Except ε β} {b : β}
    (h : x >>= f = Except.ok b) : ∃ a, x = Except.ok a ∧ f a = Except.ok b := by
  cases x with
  | error e => exact absurd h (by simp [Bind.bind, Except.bind])
  | ok a => exact ⟨a, rfl, h⟩

theorem except_ok_bind {ε α β : Type} (a : α) (f : α → Except ε β) :
    (Except.ok a >>= f : Except ε β) = f a := rfl

@[simp] theorem isNull_null : Json.null.isNull = true := rfl

@[simp] theorem isNull_num (q : ℚ) : (Json.num q).isNull = false := rfl

/-- Filtering the `null` entries out of an encoded closes list is encoding
the `filterMap` of the original list. -/
theorem filter_jsonOfClose (closes : List (Option ℚ)) :
    (closes.map jsonOfClose).filter (fun c => !c.isNull)
      = (closes.filterMap id).map Json.num := by
  induction closes with
  | nil => rfl
  | cons c cs ih => cases c <;> simp [jsonOfClose, ih]

/-- Python `sum` over encoded rationals succeeds with their sum. -/
theorem sumNums_map_num (l : List ℚ) : sumNums (l.map Json.num) = Except.ok l.sum := by
  induction l with
  | nil => rfl
  | cons q qs ih => simp [sumNums, Json.asNum, ih, Bind.bind, Except.bind]

/-- The filter-and-window phase of the fetcher agrees with its pure model. -/
theorem sp500_window_eq (closes : List (Option ℚ)) :
    sp500_window (closes.map jsonOfClose) = Except.ok (sp500_from_closes closes) := by
  unfold sp500_window sp500_from_closes
  rw [filter_jsonOfClose]
  simp only [List.length_map]
  by_cases h : 200 ≤ (closes.filterMap id).length
  · rw [if_pos h, if_pos h, ← List.map_drop, sumNums_map_num, except_ok_bind,
      List.getLast?_map]
    cases hl : (closes.filterMap id).getLast? with
    | none =>
      rw [List.getLast?_eq_none_iff] at hl
      rw [hl] at h
      simp at h
    | some last => rfl
  · rw [if_neg h, if_neg h]

/-- The fetcher `check_vix` catches every error its body raises. -/
theorem check_vix_never_raises (o : HttpOutcome) : ∃ r, check_vix o = Except.ok r := by
  unfold check_vix
  cases check_vix_body o <;> exact ⟨_, rfl⟩

/-- The fetcher `check_sp500_200ma` catches every error its body raises. -/
theorem check_sp500_never_raises (o : HttpOutcome) :
    ∃ r, check_sp500_200ma o = Except.ok r := by
  unfold check_sp500_200ma
  cases check_sp500_body o <;> exact ⟨_, rfl⟩

/-- The fetcher `check_yield_curve` catches every error its body raises. -/
theorem check_yield_curve_never_raises (apiKey : String) (o2y o10y : HttpOutcome) :
    ∃ r, check_yield_curve apiKey o2y o10y = Except.ok r := by
  unfold check_yield_curve
  by_cases h : apiKey = ""
  · exact ⟨_, by rw [if_pos h]⟩
  · rw [if_neg h]
    cases check_yield_curve_body o2y o10y <;> exact ⟨_, rfl⟩

/-- Computing `filterMap id` over an all-valid replicated closes list. -/
theorem filterMap_id_replicate (n : ℕ) (a : ℚ) :
    (List.replicate n (some a)).filterMap id = List.replicate n a := by
  induction n with
  | zero => rfl
  | succ k ih => simp only [List.replicate_succ, List.filterMap_cons, id, ih]

/-- The last element of a list ending in a singleton. -/
theorem getLast?_append_singleton (l : List ℚ) (a : ℚ) : (l ++ [a]).getLast? = some a := by
  simp

/-- The valid closes of the 200-sample witness list. -/
theorem filterMap_witness_closes :
    (List.replicate 199 (some (2:ℚ)) ++ [some 2, none]).filterMap id
      = List.replicate 199 (2:ℚ) ++ [2] := by
  rw [List.filterMap_append, filterMap_id_replicate]
  rfl

/-- The 200-sample witness list has exactly 200 valid closes. -/
theorem witness_closes_length :
    ((List.replicate 199 (some (2:ℚ)) ++ [some 2, none]).filterMap id).length = 200 := by
  rw [filterMap_witness_closes, List.length_append, List.length_replicate]
  rfl

/-- The valid closes of the 200-sample witness list sum to 400. -/
theorem witness_closes_sum : (List.replicate 199 (2:ℚ) ++ [2]).sum = 400 := by
  rw [List.sum_append, List.sum_replicate, nsmul_eq_mul]
  norm_num

/-- The fetcher body on a well-formed chart response is the pure
filter-and-window model of the closes it carries. -/
theorem sp500_body_eq (closes : List (Option ℚ)) :
    check_sp500_body (sp500ChartOutcome closes) = Except.ok (sp500_from_closes closes) := by
  show sp500_window (closes.map jsonOfClose) = Except.ok (sp500_from_closes closes)
  exact sp500_window_eq closes

/-- Fewer than 200 valid closes produce no result. -/
theorem sp500_insufficient (closes : List (Option ℚ))
    (h : (closes.filterMap id).length < 200) : sp500_from_closes closes = none := by
  simp only [sp500_from_closes]
  rw [if_neg (by omega)]

/-- With exactly 200 valid closes the whole valid list is the window. -/
theorem sp500_exact200 (closes : List (Option ℚ))
    (h200 : (closes.filterMap id).length = 200)
    (last : ℚ) (hl : (closes.filterMap id).getLast? = some last) :
    sp500_from_closes closes = some (last, (closes.filterMap id).sum / 200) := by
  simp only [sp500_from_closes]
  rw [if_pos (by omega), hl, h200]
  simp

/-- The concrete value of the fetcher on the 200-sample witness list. -/
theorem sp500_witness_value :
    sp500_from_closes (List.replicate 199 (some (2:ℚ)) ++ [some 2, none]) = some (2, 2) := by
  have h := sp500_exact200 (List.replicate 199 (some 2) ++ [some 2, none])
    witness_closes_length 2
    (by rw [filterMap_witness_closes]; exact getLast?_append_singleton _ _)
  rw [h, filterMap_witness_closes, witness_closes_sum]
  norm_num

/-- Python `float("4.50")` is 4.5. -/
theorem pyFloat_450 : pyFloat (Json.str "4.50") = Except.ok (4.5 : ℚ) := by
  have h : pyFloat (Json.str "4.50")
      = Except.ok (((4:ℕ):ℚ) + ((50:ℕ):ℚ) / (10:ℚ) ^ 2) := rfl
  rw [h]
  norm_num

/-- Python `float("3.75")` is 3.75. -/
theorem pyFloat_375 : pyFloat (Json.str "3.75") = Except.ok (3.75 : ℚ) := by
  have h : pyFloat (Json.str "3.75")
      = Except.ok (((3:ℕ):ℚ) + ((75:ℕ):ℚ) / (10:ℚ) ^ 2) := rfl
  rw [h]
  norm_num

/-- Python `float("5.00")` is 5. -/
theorem pyFloat_500 : pyFloat (Json.str "5.00") = Except.ok (5 : ℚ) := by
  have h : pyFloat (Json.str "5.00")
      = Except.ok (((5:ℕ):ℚ) + ((0:ℕ):ℚ) / (10:ℚ) ^ 2) := rfl
  rw [h]
  norm_num

/-- Python `float("4.00")` is 4. -/
theorem pyFloat_400 : pyFloat (Json.str "4.00") = Except.ok (4 : ℚ) := by
  have h : pyFloat (Json.str "4.00")
      = Except.ok (((4:ℕ):ℚ) + ((0:ℕ):ℚ) / (10:ℚ) ^ 2) := rfl
  rw [h]
  norm_num

/-- Evaluating the yield-curve body on two well-formed FRED responses. -/
theorem check_yield_curve_body_eval (v2 v10 : String) (q2 q10 : ℚ)
    (h2 : pyFloat (Json.str v2) = Except.ok q2)
    (h10 : pyFloat (Json.str v10) = Except.ok q10) :
    check_yield_curve_body (fredOutcome v2) (fredOutcome v10)
      = Except.ok (q2, q10, q10 - q2) := by
  show (pyFloat (Json.str v2) >>= fun y2 =>
      pyFloat (Json.str v10) >>= fun y10 =>
      Except.ok (y2, y10, y10 - y2)) = Except.ok (q2, q10, q10 - q2)
  rw [h2, except_ok_bind, h10, except_ok_bind]

/-- Evaluating the whole yield-curve fetcher on two well-formed FRED
responses under a truthy key. -/
theorem check_yield_curve_eval (v2 v10 : String) (q2 q10 : ℚ)
    (h2 : pyFloat (Json.str v2) = Except.ok q2)
    (h10 : pyFloat (Json.str v10) = Except.ok q10) :
    check_yield_curve "key" (fredOutcome v2) (fredOutcome v10)
      = Except.ok (some (q2, q10, q10 - q2), []) := by
  unfold check_yield_curve
  rw [if_neg (by decide), check_yield_curve_body_eval v2 v10 q2 q10 h2 h10]

/-- Every successful body result carries `spread = y10 - y2`. -/
theorem check_yield_curve_body_spread (o2y o10y : HttpOutcome) (y2 y10 s : ℚ)
    (h : check_yield_curve_body o2y o10y = Except.ok (y2, y10, s)) : s = y10 - y2 := by
  unfold check_yield_curve_body at h
  obtain ⟨j2, _, h⟩ := except_bind_ok h
  obtain ⟨obs2, _, h⟩ := except_bind_ok h
  obtain ⟨d2, _, h⟩ := except_bind_ok h
  obtain ⟨j10, _, h⟩ := except_bind_ok h
  obtain ⟨obs10, _, h⟩ := except_bind_ok h
  obtain ⟨d10, _, h⟩ := except_bind_ok h
  obtain ⟨v2, _, h⟩ := except_bind_ok h
  obtain ⟨a2, _, h⟩ := except_bind_ok h
  obtain ⟨v10, _, h⟩ := except_bind_ok h
  obtain ⟨a10, _, h⟩ := except_bind_ok h
  injection h with h
  rw [Prod.mk.injEq, Prod.mk.injEq] at h
  obtain ⟨h2, h10, hs⟩ := h
  rw [← hs, ← h2, ← h10]

end Helpers

section Claims

/-- Claim C1: the monitor loop's VIX classification maps `v > 45` to the
capitulation ALERT line, `25 < v ≤ 45` to the crash-phase warning line and
`v ≤ 25` to the normal line; both boundaries are exclusive on the strict
comparison, so the loop step emits the warning line at exactly 45 and the
normal line at exactly 25. -/
theorem vix_threshold_classification :
    (∀ v : ℚ, 45 < v → vix_line v = Line.vixAlert v) ∧
    (∀ v : ℚ, 25 < v → v ≤ 45 → vix_line v = Line.vixWarning v) ∧
    (∀ v : ℚ, v ≤ 25 → vix_line v = Line.vixNormal v) ∧
    vix_step (some (Json.num 45)) = Except.ok [Line.vixWarning 45] ∧
    vix_step (some (Json.num 25)) = Except.ok [Line.vixNormal 25] := by
  refine ⟨?_, ?_, ?_, rfl, rfl⟩
  · intro v h
    unfold vix_line
    rw [if_pos h]
  · intro v h1 h2
    unfold vix_line
    rw [if_neg (not_lt.mpr h2), if_pos h1]
  · intro v h
    unfold vix_line
    rw [if_neg (not_lt.mpr (le_trans h (by norm_num))), if_neg (not_lt.mpr h)]

/-- Witness for C1 at the concrete values 50, 30 and 10. -/
theorem vix_threshold_classification_witness :
    vix_line 50 = Line.vixAlert 50 ∧ vix_line 30 = Line.vixWarning 30 ∧
    vix_line 10 = Line.vixNormal 10 :=
  ⟨vix_threshold_classification.1 50 (by norm_num),
   vix_threshold_classification.2.1 30 (by norm_num) (by norm_num),
   vix_threshold_classification.2.2.1 10 (by norm_num)⟩

/-- Claim C2: the S&P 500 fetcher drops `null` closes preserving order,
returns nothing when fewer than 200 valid closes remain, and otherwise
returns the most recent valid close paired with the arithmetic mean of
exactly the last 200 valid closes (all of them when exactly 200 remain). -/
theorem sp500_ma200_spec :
    (∀ closes : List (Option ℚ),
      check_sp500_body (sp500ChartOutcome closes) = Except.ok (sp500_from_closes closes)) ∧
    (∀ closes : List (Option ℚ), (closes.filterMap id).length < 200 →
      sp500_from_closes closes = none) ∧
    (∀ closes : List (Option ℚ), ∀ last ma : ℚ,
      sp500_from_closes closes = some (last, ma) →
      (closes.filterMap id).getLast? = some last ∧
      ma = ((closes.filterMap id).drop ((closes.filterMap id).length - 200)).sum / 200 ∧
      ((closes.filterMap id).drop ((closes.filterMap id).length - 200)).length = 200 ∧
      200 ≤ (closes.filterMap id).length) ∧
    (∀ closes : List (Option ℚ), (closes.filterMap id).length = 200 →
      ∀ last : ℚ, (closes.filterMap id).getLast? = some last →
      sp500_from_closes closes = some (last, (closes.filterMap id).sum / 200)) := by
  refine ⟨sp500_body_eq, sp500_insufficient, ?_, fun closes h200 last hl =>
    sp500_exact200 closes h200 last hl⟩
  · intro closes last ma h
    simp only [sp500_from_closes] at h
    by_cases hlen : 200 ≤ (closes.filterMap id).length
    · rw [if_pos hlen] at h
      cases hl : (closes.filterMap id).getLast? with
      | none => rw [hl] at h; exact absurd h (by simp)
      | some l =>
        rw [hl] at h
        rw [Option.some.injEq, Prod.mk.injEq] at h
        obtain ⟨h1, h2⟩ := h
        refine ⟨by rw [h1], h2.symm, ?_, hlen⟩
        rw [List.length_drop]
        omega
    · rw [if_neg hlen] at h
      exact absurd h (by simp)

/-- Witness for C2: 199 valid closes yield nothing, and 200 valid closes
followed by a trailing `null` use all 200 as the window. -/
theorem sp500_ma200_spec_witness :
    check_sp500_body (sp500ChartOutcome (List.replicate 199 (some 1))) = Except.ok none ∧
    sp500_from_closes (List.replicate 199 (some 1)) = none ∧
    sp500_from_closes (List.replicate 199 (some 2) ++ [some 2, none]) = some (2, 2) := by
  have hlt : ((List.replicate 199 (some (1:ℚ))).filterMap id).length < 200 := by
    rw [filterMap_id_replicate, List.length_replicate]
    norm_num
  refine ⟨?_, sp500_ma200_spec.2.1 (List.replicate 199 (some 1)) hlt, ?_⟩
  · rw [sp500_ma200_spec.1 (List.replicate 199 (some 1)),
      sp500_ma200_spec.2.1 (List.replicate 199 (some 1)) hlt]
  · have h := sp500_ma200_spec.2.2.2 (List.replicate 199 (some 2) ++ [some 2, none])
      witness_closes_length 2
      (by rw [filterMap_witness_closes]; exact getLast?_append_singleton _ _)
    rw [h, filterMap_witness_closes, witness_closes_sum]
    norm_num

/-- Claim C3: every successful yield-curve result carries
`spread = yield_10y - yield_2y`, the loop classifies deep inversion iff the
spread is strictly below -0.75, and for `y2 = 4.50`, `y10 = 3.75` the spread
is exactly -0.75, classified normal/steepening. -/
theorem yield_curve_spread_spec :
    (∀ (apiKey : String) (o2y o10y : HttpOutcome) (y2 y10 s : ℚ) (ls : List Line),
      check_yield_curve apiKey o2y o10y = Except.ok (some (y2, y10, s), ls) →
      s = y10 - y2) ∧
    (∀ y2 y10 s : ℚ, s < -0.75 →
      yield_curve_step (some (y2, y10, s)) = [Line.ycDeepInversion y2 y10 s]) ∧
    (∀ y2 y10 s : ℚ, -0.75 ≤ s →
      yield_curve_step (some (y2, y10, s)) = [Line.ycNormalSteepening s]) ∧
    check_yield_curve "key" (fredOutcome "4.50") (fredOutcome "3.75")
      = Except.ok (some (4.5, 3.75, -0.75), []) ∧
    (-0.75 : ℚ) = 3.75 - 4.5 ∧
    yield_curve_step (some (4.5, 3.75, -0.75)) = [Line.ycNormalSteepening (-0.75)] := by
  refine ⟨?_, ?_, ?_,
    (check_yield_curve_eval "4.50" "3.75" 4.5 3.75 pyFloat_450 pyFloat_375).trans
      (by norm_num),
    by norm_num,
    by simp only [yield_curve_step]; rw [if_neg (by norm_num)]⟩
  · intro apiKey o2y o10y y2 y10 s ls h
    unfold check_yield_curve at h
    by_cases hk : apiKey = ""
    · rw [if_pos hk] at h
      exact absurd h (by simp)
    · rw [if_neg hk] at h
      cases hb : check_yield_curve_body o2y o10y with
      | error e => rw [hb] at h; exact absurd h (by simp)
      | ok v =>
        rw [hb] at h
        rw [Except.ok.injEq, Prod.mk.injEq] at h
        obtain ⟨h1, -⟩ := h
        obtain ⟨y2', y10', s'⟩ := v
        rw [Option.some.injEq, Prod.mk.injEq, Prod.mk.injEq] at h1
        obtain ⟨e2, e10, es⟩ := h1
        rw [← e2, ← e10, ← es]
        exact check_yield_curve_body_spread o2y o10y y2' y10' s' hb
  · intro y2 y10 s h
    simp only [yield_curve_step]
    rw [if_pos h]
  · intro y2 y10 s h
    simp only [yield_curve_step]
    rw [if_neg (not_lt.mpr h)]

/-- Witness for C3: the exact boundary spread -0.75 arising from
`y2 = 4.50`, `y10 = 3.75` is classified normal/steepening, while a spread
of -1 is classified deep inversion. -/
theorem yield_curve_spread_spec_witness :
    (-0.75 : ℚ) = 3.75 - 4.5 ∧
    yield_curve_step (some (5, 4, -1)) = [Line.ycDeepInversion 5 4 (-1)] ∧
    yield_curve_step (some (4.5, 3.75, -0.75)) = [Line.ycNormalSteepening (-0.75)] :=
  ⟨yield_curve_spread_spec.1 "key" (fredOutcome "4.50") (fredOutcome "3.75")
      4.5 3.75 (-0.75) [] yield_curve_spread_spec.2.2.2.1,
   yield_curve_spread_spec.2.1 5 4 (-1) (by norm_num),
   yield_curve_spread_spec.2.2.1 4.5 3.75 (-0.75) (by norm_num)⟩

/-- Claim C4 fails as stated: a VIX fetch that yields the value 0 (a present
value) produces zero classification lines, not exactly one — the loop's
`if vix:` truthiness guard treats 0 like an absent value. -/
theorem vix_zero_value_skipped :
    check_vix (vixChartOutcome (Json.num 0)) = Except.ok (some (Json.num 0), []) ∧
    vix_step (some (Json.num 0)) = Except.ok [] :=
  ⟨rfl, rfl⟩

/-- Claim C4 (amended): each indicator whose fetcher yields a value gets
exactly one classification line and an absent value is skipped while the
other indicators execute and log normally — except that a VIX value of
exactly 0 is falsy under `if vix:` and is skipped like an absent value. -/
theorem cycle_line_emission_spec :
    (∀ v : ℚ, v ≠ 0 → vix_step (some (Json.num v)) = Except.ok [vix_line v]) ∧
    vix_step (some (Json.num 0)) = Except.ok [] ∧
    vix_step none = Except.ok [] ∧
    (∀ p m : ℚ, (sp500_step (some (p, m))).length = 1) ∧
    sp500_step none = [] ∧
    (∀ y2 y10 s : ℚ, (yield_curve_step (some (y2, y10, s))).length = 1) ∧
    yield_curve_step none = [] ∧
    (∀ (inp : CycleInput) (vix : Option Json) (vixLogs vixLines : List Line)
        (sp : Option (ℚ × ℚ)) (spLogs : List Line)
        (yc : Option (ℚ × ℚ × ℚ)) (ycLogs : List Line),
      check_vix inp.vixOutcome = Except.ok (vix, vixLogs) →
      vix_step vix = Except.ok vixLines →
      check_sp500_200ma inp.sp500Outcome = Except.ok (sp, spLogs) →
      check_yield_curve inp.apiKey inp.fred2yOutcome inp.fred10yOutcome
        = Except.ok (yc, ycLogs) →
      run_cycle inp = Except.ok
        (vixLogs ++ vixLines ++ spLogs ++ sp500_step sp
          ++ ycLogs ++ yield_curve_step yc)) := by
  refine ⟨?_, rfl, rfl, ?_, rfl, ?_, rfl, ?_⟩
  · intro v hv
    have ht : pyTruthy (some (Json.num v)) = true := by simp [pyTruthy, hv]
    simp only [vix_step, ht, if_true]
  · intro p m
    simp only [sp500_step]
    split <;> rfl
  · intro y2 y10 s
    simp only [yield_curve_step]
    split <;> rfl
  · intro inp vix vixLogs vixLines sp spLogs yc ycLogs h1 h2 h3 h4
    simp only [run_cycle, h1, except_ok_bind, h2, h3, h4]

/-- Witness for C4 (amended): a cycle where the VIX fetch fails while the
S&P 500 and yield-curve indicators each log exactly one line. -/
theorem cycle_line_emission_spec_witness :
    run_cycle ⟨"key", HttpOutcome.response 500 "Server Error" none,
        sp500ChartOutcome (List.replicate 199 (some 2) ++ [some 2, none]),
        fredOutcome "5.00", fredOutcome "4.00"⟩
      = Except.ok [Line.errVix (PyErr.httpError 500 "Server Error"),
          Line.spAbove 2 2, Line.ycDeepInversion 5 4 (-1)] := by
  have hsp : check_sp500_200ma
      (sp500ChartOutcome (List.replicate 199 (some 2) ++ [some 2, none]))
      = Except.ok (some (2, 2), []) := by
    unfold check_sp500_200ma
    rw [sp500_body_eq, sp500_witness_value]
  have hyc := check_yield_curve_eval "5.00" "4.00" 5 4 pyFloat_500 pyFloat_400
  have h := cycle_line_emission_spec.2.2.2.2.2.2.2
    ⟨"key", HttpOutcome.response 500 "Server Error" none,
      sp500ChartOutcome (List.replicate 199 (some 2) ++ [some 2, none]),
      fredOutcome "5.00", fredOutcome "4.00"⟩
    none [Line.errVix (PyErr.httpError 500 "Server Error")] []
    (some (2, 2)) [] (some (5, 4, 4 - 5)) []
    rfl rfl hsp hyc
  rw [h]
  have hspread : (4:ℚ) - 5 = -1 := by norm_num
  rw [hspread]
  have hsps : sp500_step (some ((2:ℚ), (2:ℚ))) = [Line.spAbove 2 2] := rfl
  have hycs : yield_curve_step (some ((5:ℚ), (4:ℚ), (-1:ℚ)))
      = [Line.ycDeepInversion 5 4 (-1)] := by
    simp only [yield_curve_step]
    rw [if_pos (by norm_num)]
  rw [hsps, hycs]
  rfl

/-- Claim C5 fails as stated: status 204 is a 2xx success status, yet the
wrapper raises `HTTPError` for it, because the code tests `status != 200`
rather than 2xx membership. -/
theorem http_get_2xx_counterexample :
    (200 ≤ 204 ∧ 204 < 300) ∧
    get (HttpOutcome.response 204 "No Content" (some (Json.obj [])))
      = Except.error (PyErr.httpError 204 "No Content") :=
  ⟨⟨by norm_num, by norm_num⟩, rfl⟩

/-- Claim C5 (amended): the wrapper raises `HTTPError` carrying the status
code and body iff the status is not exactly 200; a 200 response with a
well-formed JSON body returns the parsed body unchanged, and a 404 response
raises `HTTPError` with status 404. -/
theorem http_get_status_spec :
    (∀ (status : ℕ) (content : String) (j : Json),
      get (HttpOutcome.response status content (some j))
        = if status = 200 then Except.ok j
          else Except.error (PyErr.httpError status content)) ∧
    (∀ (content : String) (body : Option Json),
      get (HttpOutcome.response 404 content body)
        = Except.error (PyErr.httpError 404 content)) := by
  constructor
  · intro status content j
    by_cases h : status = 200
    · subst h
      rfl
    · rw [if_neg h]
      simp only [get]
      rw [if_pos h]
  · intro content body
    simp only [get]
    rw [if_pos (by norm_num)]

/-- Claim C6 states the intent but the code has a bug:
`config("FRED_API_KEY", cast=str)` passes no default (unlike `LOG_FILE`), so
an environment without `FRED_API_KEY` raises `UndefinedValueError` at import
time and the process never starts; the silent-disable path only exists for a
key that is present but empty, in which case the fetcher issues zero
requests and returns no data. -/
theorem fred_key_absent_crashes_startup :
    load_FRED_API_KEY [] = Except.error "UndefinedValueError: FRED_API_KEY not found" ∧
    load_FRED_API_KEY [("LOG_FILE", "market.log"), ("CHECK_INTERVAL_MINUTES", "30")]
      = Except.error "UndefinedValueError: FRED_API_KEY not found" ∧
    load_LOG_FILE [] = Except.ok "market_triggers.log" ∧
    (∀ o2y o10y, check_yield_curve "" o2y o10y = Except.ok (none, [])) ∧
    yield_curve_requests "" = [] :=
  ⟨rfl, rfl, rfl, fun _ _ => rfl, rfl⟩

/-- Claim C7: no fetcher ever propagates an exception to the monitor loop —
every upstream outcome produces a returned result — and each failure kind
(transport failure, non-success status, missing key, malformed JSON body,
FRED's unparsable "." sentinel) is converted to a logged no-data outcome. -/
theorem fetchers_isolate_failures :
    (∀ o, ∃ r, check_vix o = Except.ok r) ∧
    (∀ o, ∃ r, check_sp500_200ma o = Except.ok r) ∧
    (∀ (apiKey : String) (o2y o10y : HttpOutcome),
      ∃ r, check_yield_curve apiKey o2y o10y = Except.ok r) ∧
    check_vix (HttpOutcome.transportFailure "timeout")
      = Except.ok (none, [Line.errVix (PyErr.transportError "timeout")]) ∧
    check_vix (HttpOutcome.response 404 "Not Found" none)
      = Except.ok (none, [Line.errVix (PyErr.httpError 404 "Not Found")]) ∧
    check_vix vixOutcomeNoChart
      = Except.ok (none, [Line.errVix (PyErr.keyError "chart")]) ∧
    check_sp500_200ma (HttpOutcome.response 200 "not json" none)
      = Except.ok (none, [Line.errSp500 PyErr.jsonDecodeError]) ∧
    check_yield_curve "key" (fredOutcome ".") (fredOutcome "4.00")
      = Except.ok (none, [Line.errYieldCurve (PyErr.valueError ".")]) :=
  ⟨check_vix_never_raises, check_sp500_never_raises, check_yield_curve_never_raises,
   rfl, rfl, rfl, rfl, rfl⟩

/-- Claim C8 fails as stated: an InsufficientHistory outcome (here 199 valid
closes in a well-formed response) is converted to the no-data result with no
log line at all, while the claim demands it be logged with context. -/
theorem insufficient_history_not_logged :
    check_sp500_200ma (sp500ChartOutcome (List.replicate 199 (some 1)))
      = Except.ok (none, []) := by
  unfold check_sp500_200ma
  rw [sp500_body_eq, sp500_insufficient _ (by
    rw [filterMap_id_replicate, List.length_replicate]; norm_num)]

/-- Claim C8 (amended): failures raised inside a fetcher's try block are
logged with a fetcher-specific line at the point of conversion to no-data;
InsufficientHistory is converted to no-data silently, with no log line. -/
theorem fetcher_error_logging :
    (∀ o e, check_sp500_body o = Except.error e →
      check_sp500_200ma o = Except.ok (none, [Line.errSp500 e])) ∧
    (∀ o, check_sp500_body o = Except.ok none →
      check_sp500_200ma o = Except.ok (none, [])) ∧
    (∀ o e, check_vix_body o = Except.error e →
      check_vix o = Except.ok (none, [Line.errVix e])) ∧
    (∀ (k : String) (o2y o10y : HttpOutcome) (e : PyErr), ¬ k = "" →
      check_yield_curve_body o2y o10y = Except.error e →
      check_yield_curve k o2y o10y = Except.ok (none, [Line.errYieldCurve e])) := by
  refine ⟨?_, ?_, ?_, ?_⟩
  · intro o e h
    unfold check_sp500_200ma
    rw [h]
  · intro o h
    unfold check_sp500_200ma
    rw [h]
  · intro o e h
    unfold check_vix
    rw [h]
  · intro k o2y o10y e hk h
    unfold check_yield_curve
    rw [if_neg hk, h]

/-- Witness for C8 (amended) at concrete failing and insufficient inputs. -/
theorem fetcher_error_logging_witness :
    check_sp500_200ma (HttpOutcome.response 500 "Server Error" none)
      = Except.ok (none, [Line.errSp500 (PyErr.httpError 500 "Server Error")]) ∧
    check_sp500_200ma (sp500ChartOutcome (List.replicate 150 (some 3)))
      = Except.ok (none, []) ∧
    check_vix vixOutcomeNoChart
      = Except.ok (none, [Line.errVix (PyErr.keyError "chart")]) ∧
    check_yield_curve "key" (fredOutcome ".") (fredOutcome "4.00")
      = Except.ok (none, [Line.errYieldCurve (PyErr.valueError ".")]) :=
  ⟨fetcher_error_logging.1 _ _ rfl,
   fetcher_error_logging.2.1 _ (by
     rw [sp500_body_eq, sp500_insufficient _ (by
       rw [filterMap_id_replicate, List.length_replicate]; norm_num)]),
   fetcher_error_logging.2.2.1 _ _ rfl,
   fetcher_error_logging.2.2.2 "key" _ _ _ (by decide) rfl⟩

/-- Claim C9 fails as stated: the two FRED requests are issued by bare
`requests.get(url)` rather than through the `get` wrapper, so they carry no
browser-like headers and no timeout bound at all. -/
theorem fred_request_no_headers_counterexample :
    (⟨fred_url "DGS2" "key", [], none⟩ : Request) ∈ cycle_requests "key" ∧
    ((⟨fred_url "DGS2" "key", [], none⟩ : Request)).headers ≠ HEADERS ∧
    ((⟨fred_url "DGS2" "key", [], none⟩ : Request)).timeout = none := by
  refine ⟨by decide, by decide, rfl⟩

/-- Claim C9 (amended): requests issued through the `get` wrapper carry the
fixed browser header set and a timeout bound (30 seconds at both call
sites); the two FRED requests carry neither headers nor any timeout. -/
theorem request_headers_timeout_spec :
    (∀ (url : String) (t : ℕ),
      (get_request url t).headers = HEADERS ∧ (get_request url t).timeout = some t) ∧
    cycle_requests "" = [get_request VIX_URL 30, get_request SP500_URL 30] ∧
    (∀ k : String, ¬ k = "" → cycle_requests k
      = [get_request VIX_URL 30, get_request SP500_URL 30,
         ⟨fred_url "DGS2" k, [], none⟩, ⟨fred_url "DGS10" k, [], none⟩]) := by
  refine ⟨fun url t => ⟨rfl, rfl⟩, rfl, ?_⟩
  intro k hk
  unfold cycle_requests yield_curve_requests
  rw [if_neg hk]
  rfl

/-- Witness for C9 (amended) at the concrete key "key". -/
theorem request_headers_timeout_spec_witness :
    cycle_requests "key"
      = [get_request VIX_URL 30, get_request SP500_URL 30,
         ⟨fred_url "DGS2" "key", [], none⟩, ⟨fred_url "DGS10" "key", [], none⟩] :=
  request_headers_timeout_spec.2.2 "key" (by decide)

/-- Claim C10: a present-but-null `regularMarketPrice` makes the VIX fetcher
return no data without any log line, while a missing key anywhere along
`chart.result[0].meta.regularMarketPrice` (or an empty result list) returns
no data with an "Error fetching VIX" log line. -/
theorem vix_null_vs_missing_key :
    (∀ o, check_vix_body o = Except.ok Json.null → check_vix o = Except.ok (none, [])) ∧
    check_vix_body (vixChartOutcome Json.null) = Except.ok Json.null ∧
    check_vix (vixChartOutcome Json.null) = Except.ok (none, []) ∧
    check_vix vixOutcomeNoPrice
      = Except.ok (none, [Line.errVix (PyErr.keyError "regularMarketPrice")]) ∧
    check_vix vixOutcomeNoMeta = Except.ok (none, [Line.errVix (PyErr.keyError "meta")]) ∧
    check_vix vixOutcomeEmptyResult
      = Except.ok (none, [Line.errVix PyErr.indexError]) ∧
    check_vix vixOutcomeNoChart
      = Except.ok (none, [Line.errVix (PyErr.keyError "chart")]) := by
  refine ⟨?_, rfl, rfl, rfl, rfl, rfl, rfl⟩
  intro o h
  unfold check_vix
  rw [h]
  rfl

/-- Witness for C10: the null-price branch applied at a concrete response. -/
theorem vix_null_vs_missing_key_witness :
    check_vix (vixChartOutcome Json.null) = Except.ok (none, []) :=
  vix_null_vs_missing_key.1 (vixChartOutcome Json.null) rfl

end Claims

end MarketWatch
